import Mathlib

/-!
Shallow embedding of the CasperJS bootstrap file (src/bin/bootstrap.js) and a
verification of the spec claims about its module resolver, launch planner,
root-path and version discovery.

Modelling conventions:
* JavaScript string-or-undefined values are `Option String` (`none` models
  `undefined`); truthiness of such values is `jsFalsy` (both `undefined` and
  the empty string are falsy).
* The file-system capability is the external collaborator of spec section 6:
  a record of total, pure functions.  Call sites that may receive `undefined`
  in JavaScript take `Option String` arguments.
* Fallible code returns `Except` or an explicit outcome type; the process-exit
  primitive is modelled as a terminating outcome, per the spec contract.
-/

namespace Casper

/-- JavaScript string-or-undefined: `none` models `undefined`. -/
abbrev JStr := Option String

/-- Truthiness of a JS string value: `undefined` and `""` are the falsy cases. -/
def jsFalsy : JStr → Bool
  | none => true
  | some s => s == ""

/-- JS `a || b` on string-or-undefined values. -/
def jsOr (a b : JStr) : JStr := if jsFalsy a then b else a

/-- JS `if (x)` guard on a string value: keeps the value only when truthy. -/
def jsTruthyVal (a : JStr) : JStr := if jsFalsy a then none else a

/-- JS string coercion used by `+` concatenation: `undefined` renders as
the text "undefined". -/
def jsShow : JStr → String
  | none => "undefined"
  | some s => s

/-- File-system capability consumed by the bootstrap (spec section 6).
All queries are total and pure, per the external-collaborator contract.
Arguments are string-or-undefined because JS call sites may pass `undefined`
(for example when the root path was never discovered). -/
structure Fs where
  isFile : JStr → Bool
  isDirectory : JStr → Bool
  existsF : JStr → Bool
  absolute : JStr → String
  dirname : JStr → JStr
  pathJoin : List JStr → String
  read : JStr → String
  workingDirectory : String
  separator : String

/-- Ambient state read by the patched require at call time:
the file system, `phantom.casperPath` and `phantom.casperScriptBaseDir`. -/
structure Env where
  fs : Fs
  casperPath : JStr
  casperScriptBaseDir : JStr

/-- Errors a module load can produce: a typed CasperError raised by the
wrapper itself, or a failure of the primitive loader. -/
inductive RError where
  | casper (msg : String)
  | prim (msg : String)
deriving DecidableEq

/-- A module loader: its callable behaviour plus the `cache`, `extensions`
and `stubs` reference fields it carries, and the `patched` marker.
References are modelled as values of an abstract type so that equality
states reference identity. -/
structure Loader (κ X : Type) where
  run : Env → String → Except RError X
  cache : κ
  extensions : κ
  stubs : κ
  patched : Bool

/-- Absolute builtin candidate `<casperPath>/modules/<path>.js`
(bootstrap.js line 186). -/
def casperBuiltinAbs (env : Env) (path : String) : String :=
  env.fs.pathJoin [env.casperPath, some "modules", some (path ++ ".js")]

/-- bootstrap.js lines 185-188: the builtin candidate, kept only if it is
a file (otherwise `undefined`). -/
def casperBuiltinPath (env : Env) (path : String) : JStr :=
  let absPath := casperBuiltinAbs env path
  if env.fs.isFile (some absPath) then some absPath else none

/-- Base directory used for the local tier (bootstrap.js line 190):
`phantom.casperScriptBaseDir || fs.workingDirectory`. -/
def localBaseDir (env : Env) : JStr :=
  jsOr env.casperScriptBaseDir (some env.fs.workingDirectory)

/-- First local candidate `fs.absolute(fs.pathJoin(baseDir, path))`
(bootstrap.js line 192). -/
def localBare (env : Env) (path : String) : String :=
  env.fs.absolute (some (env.fs.pathJoin [localBaseDir env, some path]))

/-- Second local candidate `fs.absolute(fs.pathJoin(baseDir, path + ".js"))`
(bootstrap.js line 193). -/
def localJs (env : Env) (path : String) : String :=
  env.fs.absolute (some (env.fs.pathJoin [localBaseDir env, some (path ++ ".js")]))

/-- bootstrap.js lines 189-198: absolutized local candidates
`<baseDir>/<path>` then `<baseDir>/<path>.js`, filtered by `isFile`;
the trailing `.pop()` returns the LAST element of the filtered array. -/
def localModulePath (env : Env) (path : String) : JStr :=
  ([localBare env path, localJs env path].filter
    (fun p => env.fs.isFile (some p))).getLast?

/-- bootstrap.js lines 199-213: the body of the patched require.  Tier one is
the builtin path, tier two the local path, tier three the primitive loader
with the raw name; a throw from the primitive is caught and rethrown as a
typed CasperError naming the requested module. -/
def patchedRun {κ X : Type} (env : Env) (r : Loader κ X) (path : String) :
    Except RError X :=
  match jsTruthyVal (casperBuiltinPath env path) with
  | some p => r.run env p
  | none =>
    match jsTruthyVal (localModulePath env path) with
    | some p => r.run env p
    | none =>
      match r.run env path with
      | Except.ok v => Except.ok v
      | Except.error _ => Except.error (RError.casper ("Can\x27t find module " ++ path))

/-- bootstrap.js lines 181-219: `patchRequire`.  An already patched loader is
returned unchanged; otherwise a new patched loader is built that forwards the
`cache`, `extensions` and `stubs` references of the primitive unmodified. -/
def patchRequire {κ X : Type} (r : Loader κ X) : Loader κ X :=
  if r.patched then r
  else
    { run := fun env path => patchedRun env r path
    , cache := r.cache
    , extensions := r.extensions
    , stubs := r.stubs
    , patched := true }

/-! Patched fs.dirname (bootstrap.js lines 123-128), written on character
lists so that its behaviour on bare filenames can be characterized. -/

/-- Character membership in a list, written recursively for easy induction. -/
def hasChar (c : Char) : List Char → Bool
  | [] => false
  | x :: xs => x == c || hasChar c xs

/-- Backslash-to-slash normalization of the patched dirname
(bootstrap.js line 126, global replace of backslash by slash). -/
def backsl (c : Char) : Char := if c = '\\' then '/' else c

/-- Drop the last slash and everything after it; this is the effect of
replacing the regex match (slash followed by non-slashes, anchored at the
end) with the empty string, on a list that contains a slash. -/
def cutLastSlashL : List Char → List Char
  | [] => []
  | c :: cs => if hasChar '/' cs then c :: cutLastSlashL cs else []

/-- Patched fs.dirname on a nonempty string: normalize backslashes to
slashes, then strip the trailing slash-plus-segment when a slash exists. -/
def jsDirnameCore (s : String) : String :=
  let l := s.data.map backsl
  if hasChar '/' l then String.mk (cutLastSlashL l) else String.mk l

/-- Patched fs.dirname (bootstrap.js lines 123-128): undefined and the empty
string are falsy and give undefined; otherwise `jsDirnameCore`. -/
def jsDirname : JStr → JStr
  | none => none
  | some s => if s = "" then none else some (jsDirnameCore s)

/-- A concrete file system over finite file and directory lists, used to
evaluate the model at concrete inputs: `absolute` is the identity on defined
paths, `pathJoin` joins with a slash (rendering undefined as the empty
string, the way JS Array.join does), `dirname` is the patched dirname. -/
def listFs (files dirs : List String) : Fs where
  isFile := fun p => match p with | some s => files.contains s | none => false
  isDirectory := fun p => match p with | some s => dirs.contains s | none => false
  existsF := fun p =>
    match p with | some s => files.contains s || dirs.contains s | none => false
  absolute := fun p => p.getD ""
  dirname := jsDirname
  pathJoin := fun l => String.intercalate "/" (l.map (fun o => o.getD ""))
  read := fun _ => ""
  workingDirectory := "/cwd"
  separator := "/"

/-! Claims C1-C4: the module resolver. -/

/-- C1: whenever the builtin file `<casperPath>/modules/<name>.js` exists (and
its joined path is a truthy string), the patched require returns the primitive
result for that absolute builtin path, for every environment — hence for every
script base directory and working directory, and regardless of which local
candidates exist. -/
theorem builtin_tier_wins {κ X : Type} (env : Env) (r : Loader κ X) (name : String)
    (hFile : env.fs.isFile (some (casperBuiltinAbs env name)) = true)
    (hNe : casperBuiltinAbs env name ≠ "")
    (hUn : r.patched = false) :
    (patchRequire r).run env name = r.run env (casperBuiltinAbs env name) := by
  simp [patchRequire, hUn, patchedRun, casperBuiltinPath, hFile, jsTruthyVal, jsFalsy, hNe]

/-- Primitive loader for concrete evaluation: loading a path returns the path
itself, so the chosen file is observable in the result. -/
def primLoader : Loader Nat String where
  run := fun _ p => Except.ok p
  cache := 10
  extensions := 11
  stubs := 12
  patched := false

def fsC1 : Fs := listFs ["/casper/modules/utils.js"] []

def envC1 : Env :=
  { fs := fsC1, casperPath := some "/casper", casperScriptBaseDir := none }

/-- Witness for C1 at a concrete input. -/
theorem builtin_tier_wins_witness :
    (patchRequire primLoader).run envC1 "utils"
      = primLoader.run envC1 (casperBuiltinAbs envC1 "utils") :=
  builtin_tier_wins envC1 primLoader "utils" (by decide) (by decide) rfl

/-- C2: patchRequire is idempotent — an already patched loader is returned
unchanged; the patched loader carries the primitive loader
`cache`/`extensions`/`stubs` references unchanged, is marked patched, and a
second installation returns the identical patched loader. -/
theorem patchRequire_idem {κ X : Type} (r : Loader κ X) :
    (r.patched = true → patchRequire r = r)
    ∧ (patchRequire r).cache = r.cache
    ∧ (patchRequire r).extensions = r.extensions
    ∧ (patchRequire r).stubs = r.stubs
    ∧ (patchRequire r).patched = true
    ∧ patchRequire (patchRequire r) = patchRequire r := by
  cases hr : r.patched <;> simp [patchRequire, hr]

def patchedLoaderEx : Loader Nat String := { primLoader with patched := true }

/-- Witness for C2 at a concrete already-patched loader. -/
theorem patchRequire_idem_witness : patchRequire patchedLoaderEx = patchedLoaderEx :=
  (patchRequire_idem patchedLoaderEx).1 rfl

/-- C3 counterexample: with no builtin file and both local candidates
`b/n` and `b/n.js` existing as files, resolution selects `b/n.js` — the
candidate WITH the extension — because the filtered candidate array is popped
from the end; the claim predicts the extension-less `b/n`. -/
def fsC3 : Fs := listFs ["b/n", "b/n.js"] []

def envC3 : Env :=
  { fs := fsC3, casperPath := some "/casper", casperScriptBaseDir := some "b" }

theorem local_ext_wins_counterexample :
    fsC3.isFile (some (localBare envC3 "n")) = true
    ∧ fsC3.isFile (some (localJs envC3 "n")) = true
    ∧ casperBuiltinPath envC3 "n" = none
    ∧ localBare envC3 "n" = "b/n"
    ∧ localJs envC3 "n" = "b/n.js"
    ∧ localModulePath envC3 "n" = some "b/n.js"
    ∧ localModulePath envC3 "n" ≠ some (localBare envC3 "n")
    ∧ (patchRequire primLoader).run envC3 "n" = Except.ok "b/n.js" := by
  exact ⟨by decide, by decide, by decide, by decide, by decide, by decide,
    by decide, rfl⟩

/-- C3 (amended): among the local candidates, filtered in the order bare name
first then name + ".js", the LAST existing one wins: whenever the ".js"
candidate is a file it is selected; the bare candidate is selected exactly
when it is a file and the ".js" candidate is not; with neither existing the
local tier yields nothing. -/
theorem localModulePath_last_wins (env : Env) (name : String) :
    (env.fs.isFile (some (localJs env name)) = true →
      localModulePath env name = some (localJs env name))
    ∧ (env.fs.isFile (some (localBare env name)) = true →
        env.fs.isFile (some (localJs env name)) = false →
        localModulePath env name = some (localBare env name))
    ∧ (env.fs.isFile (some (localBare env name)) = false →
        env.fs.isFile (some (localJs env name)) = false →
        localModulePath env name = none) := by
  refine ⟨fun h2 => ?_, fun h1 h2 => ?_, fun h1 h2 => ?_⟩ <;>
    cases h1b : env.fs.isFile (some (localBare env name)) <;>
      simp_all [localModulePath, List.filter]

/-- Witness for the amended C3 at the concrete input of the counterexample. -/
theorem localModulePath_last_wins_witness :
    localModulePath envC3 "n" = some (localJs envC3 "n") :=
  (localModulePath_last_wins envC3 "n").1 (by decide)

/-- C4: when neither the builtin candidate nor any local candidate exists as a
file and the primitive loader fails on the raw name, the patched require
produces the typed CasperError whose message is the fixed text followed by the
requested name — the primitive failure is replaced, never propagated as-is. -/
theorem fallback_failure_typed {κ X : Type} (env : Env) (r : Loader κ X)
    (name : String) (e : RError)
    (hB : env.fs.isFile (some (casperBuiltinAbs env name)) = false)
    (h1 : env.fs.isFile (some (localBare env name)) = false)
    (h2 : env.fs.isFile (some (localJs env name)) = false)
    (hUn : r.patched = false)
    (hRun : r.run env name = Except.error e) :
    (patchRequire r).run env name
        = Except.error (RError.casper ("Can\x27t find module " ++ name))
    ∧ ∃ t, ("Can\x27t find module " ++ name) = t ++ name := by
  refine ⟨?_, ⟨"Can\x27t find module ", rfl⟩⟩
  simp [patchRequire, hUn, patchedRun, casperBuiltinPath, hB, localModulePath,
    List.filter, h1, h2, jsTruthyVal, jsFalsy, hRun]

def failLoader : Loader Nat String where
  run := fun _ _ => Except.error (RError.prim "primitive failure")
  cache := 0
  extensions := 0
  stubs := 0
  patched := false

def fsC4 : Fs := listFs [] []

def envC4 : Env :=
  { fs := fsC4, casperPath := some "/casper", casperScriptBaseDir := none }

/-- Witness for C4 at a concrete input. -/
theorem fallback_failure_typed_witness :
    (patchRequire failLoader).run envC4 "mystery"
        = Except.error (RError.casper ("Can\x27t find module " ++ "mystery"))
    ∧ ∃ t, ("Can\x27t find module " ++ "mystery") = t ++ "mystery" :=
  fallback_failure_typed envC4 failLoader "mystery" (RError.prim "primitive failure")
    (by decide) (by decide) (by decide) rfl rfl

/-! Launch planner: parsed arguments, decision table, post-table checks. -/

/-- CasperJS version record built by getCasperVersion (lines 284-296). -/
structure CasperVersion where
  major : Int
  minor : Int
  patch : Int
  ident : String
deriving DecidableEq

/-- Rendering of the version record (lines 289-295): numeric parts joined
with dots, then "-ident" appended when the ident is truthy. -/
def CasperVersion.toStr (v : CasperVersion) : String :=
  let s := toString v.major ++ "." ++ toString v.minor ++ "." ++ toString v.patch
  if v.ident = "" then s else s ++ "-" ++ v.ident

/-- PhantomJS runtime version triple (phantom.version). -/
structure PhVersion where
  major : Int
  minor : Int
  patch : Int
deriving DecidableEq

/-- Rendering of the PhantomJS version used by printHelp (line 165). -/
def PhVersion.toStr (v : PhVersion) : String :=
  toString v.major ++ "." ++ toString v.minor ++ "." ++ toString v.patch

/-- Option values the bootstrap reads from the parsed argument table.
Modelled from the spec: the raw argument parser is an external collaborator
(spec section 6); only the flags the bootstrap consults are kept, with JS
truthiness already applied to version/help/cli. -/
structure CliOptions where
  version : Bool
  help : Bool
  cli : Bool
  includes : JStr
deriving DecidableEq

/-- Parsed arguments: option table plus ordered positional list. -/
structure CasperArgs where
  options : CliOptions
  args : List String
deriving DecidableEq

/-- Positional lookup casperArgs.get(i): undefined when out of range. -/
def argsGet (a : CasperArgs) (i : Nat) : JStr := a.args[i]?

/-- Modelled from the spec: casperArgs.drop(token) of the external argument
parser — an idempotent, order-preserving removal of the token from the
positional list, a no-op when the token is absent; dropping an undefined
token removes nothing. -/
def argsDrop (a : CasperArgs) (tok : JStr) : CasperArgs :=
  { a with args := a.args.filter (fun s => !(some s == tok)) }

/-- Phantom fields written by initCasperCli, plus the argument object. -/
structure CliState where
  casperArgs : CasperArgs
  casperScript : JStr
  casperScriptBaseDir : JStr
  casperTest : Bool
  casperSelfTest : Bool
deriving DecidableEq

/-- Terminal action of the planner: exit code, printed message, and whether
the message goes to the error stream. -/
structure ExitInfo where
  code : Nat
  message : JStr
  isError : Bool
deriving DecidableEq

/-- Planner outcome: either fall through to the rest of the bootstrap with
the updated state, or terminate the process, carrying the state at that
moment. -/
inductive CliOutcome where
  | proceed (st : CliState)
  | exit (e : ExitInfo) (st : CliState)
deriving DecidableEq

/-- The "test" subcommand branch (bootstrap.js lines 229-233). -/
def testBranch (fs : Fs) (baseTestsPath : String) (st : CliState) : CliState :=
  let script := fs.absolute (some (fs.pathJoin [some baseTestsPath, some "run.js"]))
  let a1 := argsDrop st.casperArgs (some "test")
  { st with casperScript := some script
          , casperTest := true
          , casperArgs := a1
          , casperScriptBaseDir := fs.dirname (argsGet a1 0) }

/-- The "selftest" subcommand branch (bootstrap.js lines 234-242). -/
def selftestBranch (fs : Fs) (baseTestsPath : String) (st : CliState) : CliState :=
  let script := fs.absolute (some (fs.pathJoin [some baseTestsPath, some "run.js"]))
  let o1 := { st.casperArgs.options with
                includes := some (fs.pathJoin [some baseTestsPath, some "selftest.js"]) }
  let args1 := if st.casperArgs.args.length ≤ 1
    then st.casperArgs.args ++ [fs.pathJoin [some baseTestsPath, some "suites"]]
    else st.casperArgs.args
  let a1 := argsDrop { options := o1, args := args1 } (some "selftest")
  { st with casperScript := some script
          , casperTest := true
          , casperSelfTest := true
          , casperArgs := a1
          , casperScriptBaseDir :=
              fs.dirname (jsOr (argsGet a1 1) (fs.dirname (some script))) }

/-- Target script after the decision table (lines 247-249): the field set by
a branch when truthy, or else the first positional. -/
def tableScript (st : CliState) : JStr :=
  if jsFalsy st.casperScript then argsGet st.casperArgs 0 else st.casperScript

/-- Script-directory computation of lines 256-259: fs.dirname of the script,
with "." substituted exactly when that string equals the script path. -/
def resolvedScriptDir (fs : Fs) (script : JStr) : JStr :=
  let sd := fs.dirname script
  if sd = script then some "." else sd

/-- bootstrap.js lines 247-264: post-table existence check, base-directory
computation when no branch set one, and the final drop of the script token. -/
def afterTable (fs : Fs) (st : CliState) : CliOutcome :=
  let script := tableScript st
  let st1 := { st with casperScript := script }
  if fs.isFile script then
    let st2 := if jsFalsy st1.casperScriptBaseDir then
        { st1 with casperScriptBaseDir := some (fs.absolute (resolvedScriptDir fs script)) }
      else st1
    CliOutcome.proceed { st2 with casperArgs := argsDrop st2.casperArgs script }
  else
    CliOutcome.exit ⟨1, some ("Unable to open file: " ++ jsShow script), true⟩ st1

/-- Help text produced by printHelp (lines 164-171). -/
def helpMessage (fs : Fs) (cp : JStr) (cv : CasperVersion) (phv : PhVersion) :
    String :=
  "CasperJS version " ++ CasperVersion.toStr cv ++ " at " ++ jsShow cp
    ++ ", using PhantomJS version " ++ PhVersion.toStr phv ++ "\n"
    ++ fs.read (some (fs.pathJoin [cp, some "bin", some "usage.txt"]))

/-- bootstrap.js lines 224-265: the launch planner. -/
def initCasperCli (fs : Fs) (cp : JStr) (cv : CasperVersion) (phv : PhVersion)
    (st : CliState) : CliOutcome :=
  let baseTestsPath := fs.pathJoin [cp, some "tests"]
  if st.casperArgs.options.version then
    CliOutcome.exit ⟨0, some (CasperVersion.toStr cv), false⟩ st
  else if argsGet st.casperArgs 0 == some "test" then
    afterTable fs (testBranch fs baseTestsPath st)
  else if argsGet st.casperArgs 0 == some "selftest" then
    afterTable fs (selftestBranch fs baseTestsPath st)
  else if st.casperArgs.args.isEmpty || st.casperArgs.options.help then
    CliOutcome.exit ⟨0, some (helpMessage fs cp cv phv), false⟩ st
  else afterTable fs st

/-! Helper lemmas about the patched dirname. -/

theorem map_backsl_of_no_backslash (l : List Char) (h : hasChar '\\' l = false) :
    l.map backsl = l := by
  induction l with
  | nil => rfl
  | cons c cs ih =>
    simp only [hasChar, Bool.or_eq_false_iff, beq_eq_false_iff_ne, ne_eq] at h
    simp [backsl, h.1, ih h.2]

theorem hasChar_map_backsl (l : List Char) :
    hasChar '/' (l.map backsl) = (hasChar '/' l || hasChar '\\' l) := by
  induction l with
  | nil => rfl
  | cons c cs ih =>
    by_cases hb : c = '\\'
    · subst hb; simp [hasChar, backsl, ih]
    · by_cases hs : c = '/'
      · subst hs; simp [hasChar, backsl, ih]
      · have hb' : (c == '\\') = false := beq_eq_false_iff_ne.mpr hb
        have hs' : (c == '/') = false := beq_eq_false_iff_ne.mpr hs
        simp [hasChar, backsl, hb, hs, hb', hs', ih]

theorem cutLastSlashL_length_lt (l : List Char) (h : hasChar '/' l = true) :
    (cutLastSlashL l).length < l.length := by
  induction l with
  | nil => simp [hasChar] at h
  | cons c cs ih =>
    by_cases hs : hasChar '/' cs = true
    · rw [cutLastSlashL]
      simpa [hs] using Nat.succ_lt_succ (ih hs)
    · rw [cutLastSlashL]
      simp [hs]

theorem mk_data_eq (s : String) : String.mk s.data = s := rfl

/-- The patched dirname fixes a nonempty string exactly when the string has
no slash and no backslash — the bare-filename case. -/
theorem jsDirname_fixed_iff (s : String) (hNe : s ≠ "") :
    jsDirname (some s) = some s ↔
      (hasChar '/' s.data = false ∧ hasChar '\\' s.data = false) := by
  constructor
  · intro h
    have h' : jsDirnameCore s = s := by
      simpa [jsDirname, hNe] using h
    have hslash : hasChar '/' (s.data.map backsl) = false := by
      by_contra hc
      have hc' : hasChar '/' (s.data.map backsl) = true := by
        cases hx : hasChar '/' (s.data.map backsl) with
        | false => exact absurd hx hc
        | true => rfl
      have hlen := cutLastSlashL_length_lt _ hc'
      rw [jsDirnameCore] at h'
      simp only [hc', if_true] at h'
      have hdata : cutLastSlashL (s.data.map backsl) = s.data :=
        congrArg String.data h'
      rw [hdata, List.length_map] at hlen
      exact absurd hlen (lt_irrefl _)
    rw [hasChar_map_backsl] at hslash
    exact ⟨(Bool.or_eq_false_iff.mp hslash).1, (Bool.or_eq_false_iff.mp hslash).2⟩
  · rintro ⟨h1, h2⟩
    have hmap : s.data.map backsl = s.data := map_backsl_of_no_backslash _ h2
    simp [jsDirname, hNe, jsDirnameCore, hmap, h1, mk_data_eq]

/-! Claim C8: the post-table base-directory computation. -/

/-- C8: when no decision-table branch set a (truthy) base directory and the
target script exists as a file, the planner proceeds, setting the base
directory to the absolutized resolved script directory; the resolved
directory substitutes "." exactly when fs.dirname of the script equals the
script path itself; and with the patched dirname that equation characterizes
a nonempty bare filename containing no slash and no backslash. -/
theorem post_table_base_dir (fs : Fs) (st : CliState) (script : String)
    (hS : st.casperScript = some script) (hNe : script ≠ "")
    (hB : jsFalsy st.casperScriptBaseDir = true)
    (hF : fs.isFile (some script) = true) :
    afterTable fs st = CliOutcome.proceed
      { st with casperScript := some script
              , casperScriptBaseDir := some (fs.absolute (resolvedScriptDir fs (some script)))
              , casperArgs := argsDrop st.casperArgs (some script) }
    ∧ (fs.dirname (some script) = some script →
        resolvedScriptDir fs (some script) = some ".")
    ∧ (fs.dirname (some script) ≠ some script →
        resolvedScriptDir fs (some script) = fs.dirname (some script))
    ∧ (jsDirname (some script) = some script ↔
        (hasChar '/' script.data = false ∧ hasChar '\\' script.data = false)) := by
  refine ⟨?_, fun h => by simp [resolvedScriptDir, h],
    fun h => by simp [resolvedScriptDir, h], jsDirname_fixed_iff script hNe⟩
  rcases st with ⟨a, cs, bd, ct, cst⟩
  simp only [CliState.mk.injEq] at hS ⊢
  subst hS
  have hts : tableScript ⟨a, some script, bd, ct, cst⟩ = some script := by
    simp [tableScript, jsFalsy, hNe]
  simp only [jsFalsy] at hB
  simp [afterTable, hts, hF, hB, jsFalsy]

def fs8 : Fs := listFs ["bare.js"] []

def st8 : CliState :=
  { casperArgs := { options := { version := false, help := false, cli := true
                               , includes := none }
                  , args := ["bare.js"] }
  , casperScript := some "bare.js"
  , casperScriptBaseDir := none
  , casperTest := false
  , casperSelfTest := false }

/-- Witness for C8: a bare filename with no separators falls back to ".". -/
theorem post_table_base_dir_witness :
    afterTable fs8 st8 = CliOutcome.proceed
      { st8 with casperScript := some "bare.js"
               , casperScriptBaseDir := some (fs8.absolute (resolvedScriptDir fs8 (some "bare.js")))
               , casperArgs := argsDrop st8.casperArgs (some "bare.js") } :=
  (post_table_base_dir fs8 st8 "bare.js" rfl (by decide) (by decide) (by decide)).1

/-! Claim C5: the "selftest" branch of the decision table. -/

def cliFs5 : Fs := listFs ["/casper/tests/run.js"] []

def cst5 : CliState :=
  { casperArgs := { options := { version := false, help := false, cli := true
                               , includes := none }
                  , args := ["selftest"] }
  , casperScript := none
  , casperScriptBaseDir := none
  , casperTest := false
  , casperSelfTest := false }

def cv5 : CasperVersion := ⟨1, 1, 0, ""⟩

def phv5 : PhVersion := ⟨1, 9, 8⟩

/-- State the planner actually produces for arguments ["selftest"]. -/
def st5r : CliState :=
  { casperArgs := { options := { version := false, help := false, cli := true
                               , includes := some "/casper/tests/selftest.js" }
                  , args := ["/casper/tests/suites"] }
  , casperScript := some "/casper/tests/run.js"
  , casperScriptBaseDir := some "/casper"
  , casperTest := true
  , casperSelfTest := true }

/-- C5 counterexample: with arguments ["selftest"] and no second remaining
positional, the script base directory ends up "/casper" — dirname applied to
the run-script directory — and NOT the run-script own directory
"/casper/tests" that the claim predicts. -/
theorem selftest_basedir_counterexample :
    initCasperCli cliFs5 (some "/casper") cv5 phv5 cst5 = CliOutcome.proceed st5r
    ∧ st5r.casperScript = some "/casper/tests/run.js"
    ∧ jsDirname st5r.casperScript = some "/casper/tests"
    ∧ st5r.casperScriptBaseDir = some "/casper"
    ∧ st5r.casperScriptBaseDir ≠ jsDirname st5r.casperScript := by
  exact ⟨by decide, by decide, by decide, by decide, by decide⟩

/-- C5 (amended): with options.version falsy and the first positional equal
to "selftest", the planner routes through the selftest branch and the
post-table step; the branch sets the target script to the absolutized
<root>/tests/run.js, sets both test modes, sets options.includes to
<root>/tests/selftest.js, appends <root>/tests/suites as a positional exactly
when fewer than two positionals are present, drops the "selftest" token, and
sets the script base directory to the directory of (the second remaining
positional, or else the run-script own directory when that positional is
absent) — so when that positional is absent the base directory is dirname
applied twice to the run script, the parent of the run-script directory. -/
theorem selftest_plan (fs : Fs) (cp : JStr) (cv : CasperVersion) (phv : PhVersion)
    (st : CliState) (bt : String)
    (hbt : bt = fs.pathJoin [cp, some "tests"])
    (hV : st.casperArgs.options.version = false)
    (hG : argsGet st.casperArgs 0 = some "selftest") :
    initCasperCli fs cp cv phv st = afterTable fs (selftestBranch fs bt st)
    ∧ (selftestBranch fs bt st).casperScript
        = some (fs.absolute (some (fs.pathJoin [some bt, some "run.js"])))
    ∧ (selftestBranch fs bt st).casperTest = true
    ∧ (selftestBranch fs bt st).casperSelfTest = true
    ∧ (selftestBranch fs bt st).casperArgs.options.includes
        = some (fs.pathJoin [some bt, some "selftest.js"])
    ∧ (st.casperArgs.args.length ≤ 1 →
        (selftestBranch fs bt st).casperArgs.args
          = (st.casperArgs.args ++ [fs.pathJoin [some bt, some "suites"]]).filter
              (fun s => !(some s == some "selftest")))
    ∧ (1 < st.casperArgs.args.length →
        (selftestBranch fs bt st).casperArgs.args
          = st.casperArgs.args.filter (fun s => !(some s == some "selftest")))
    ∧ (selftestBranch fs bt st).casperScriptBaseDir
        = fs.dirname (jsOr (argsGet (selftestBranch fs bt st).casperArgs 1)
            (fs.dirname (selftestBranch fs bt st).casperScript))
    ∧ (jsFalsy (argsGet (selftestBranch fs bt st).casperArgs 1) = true →
        (selftestBranch fs bt st).casperScriptBaseDir
          = fs.dirname (fs.dirname (selftestBranch fs bt st).casperScript)) := by
  have hTest : (argsGet st.casperArgs 0 == some "test") = false := by
    rw [hG]; decide
  have hSelf : (argsGet st.casperArgs 0 == some "selftest") = true := by
    rw [hG]; decide
  refine ⟨by simp [initCasperCli, hV, hTest, hSelf, hbt], by simp [selftestBranch],
    by simp [selftestBranch], by simp [selftestBranch], by simp [selftestBranch, argsDrop],
    fun h => by simp [selftestBranch, argsDrop, h],
    fun h => by simp [selftestBranch, argsDrop, Nat.not_le.mpr h],
    by simp [selftestBranch], ?_⟩
  intro hfal
  simp only [selftestBranch] at hfal ⊢
  simp only [jsOr, hfal, if_true]

/-- Witness for the amended C5 at the concrete ["selftest"] input. -/
theorem selftest_plan_witness :
    initCasperCli cliFs5 (some "/casper") cv5 phv5 cst5
      = afterTable cliFs5 (selftestBranch cliFs5 "/casper/tests" cst5) :=
  (selftest_plan cliFs5 (some "/casper") cv5 phv5 cst5 "/casper/tests"
    (by decide) rfl (by decide)).1

/-! Version parsing (getCasperVersion, bootstrap.js lines 279-296).
String builtins (trim, split, the `~~` coercion) are JS primitives; they are
embedded on character lists.  The numeric coercion covers the decimal
numerals version components can contain (optional sign, digits, optional
fraction); every other string is NaN and coerces to 0. -/

/-- JS whitespace test used by trim and by ToNumber. -/
def isJsSpace (c : Char) : Bool :=
  c == ' ' || c == '\t' || c == '\n' || c == '\r' || c == '\x0b' || c == '\x0c'

/-- Trim on character lists (JS String.prototype.trim). -/
def jsTrimL (l : List Char) : List Char :=
  ((l.dropWhile isJsSpace).reverse.dropWhile isJsSpace).reverse

/-- JS String.prototype.split with a single-character separator: splits on
every occurrence, keeping empty pieces. -/
def splitOnCharL (c : Char) : List Char → List (List Char)
  | [] => [[]]
  | x :: xs =>
    if x == c then [] :: splitOnCharL c xs
    else
      match splitOnCharL c xs with
      | [] => [[x]]
      | h :: t => (x :: h) :: t

/-- Decimal digit accumulator. -/
def digitsVal (l : List Char) : Nat :=
  l.foldl (fun a c => a * 10 + (c.toNat - 48)) 0

/-- JS ToNumber on a string, truncated toward zero the way ToInt32 begins:
none models NaN; the empty (trimmed) string is 0. -/
def jsDecNumber? (l0 : List Char) : Option Int :=
  let l := jsTrimL l0
  if l = [] then some 0
  else
    let sgn : Bool × List Char :=
      match l with
      | '-' :: r => (true, r)
      | '+' :: r => (false, r)
      | _ => (false, l)
    let ds := sgn.2.takeWhile Char.isDigit
    let r1 := sgn.2.dropWhile Char.isDigit
    match r1 with
    | [] =>
      if ds = [] then none
      else some (if sgn.1 then -(digitsVal ds : Int) else (digitsVal ds : Int))
    | '.' :: r2 =>
      let fr := r2.takeWhile Char.isDigit
      let r3 := r2.dropWhile Char.isDigit
      if r3 = [] ∧ ¬(ds = [] ∧ fr = []) then
        some (if sgn.1 then -(digitsVal ds : Int) else (digitsVal ds : Int))
      else none
    | _ => none

/-- Wrap-around of an integer into the signed 32-bit range (end of ToInt32). -/
def toInt32 (z : Int) : Int :=
  let r := z % 4294967296
  if r < 2147483648 then r else r - 4294967296

/-- The JS `~~component` coercion used on version components: NaN gives 0. -/
def jsToInt32L (l : List Char) : Int :=
  match jsDecNumber? l with
  | none => 0
  | some z => toInt32 z

/-- getCasperVersion parsing (bootstrap.js lines 279-296): trim, split on
dots; fewer than three parts raises "Invalid version number"; otherwise the
third part is split on "-" into patch and ident and each numeric component is
coerced with `~~component || 0` (the `|| 0` is the identity on the already
integral result). -/
def parseCasperVersion (vs : String) : Except String CasperVersion :=
  let parts := splitOnCharL '.' (jsTrimL vs.data)
  if parts.length < 3 then Except.error "Invalid version number"
  else
    let patchPart := splitOnCharL '-' ((parts[2]?).getD [])
    Except.ok
      { major := jsToInt32L ((parts[0]?).getD [])
      , minor := jsToInt32L ((parts[1]?).getD [])
      , patch := jsToInt32L ((patchPart[0]?).getD [])
      , ident := String.mk ((patchPart[1]?).getD []) }

/-- C10: parsing raises "Invalid version number" exactly when the trimmed
string splits on "." into fewer than three parts; with at least three parts
it always succeeds; a component that is not a numeral never raises and
coerces to 0, so "a.b.c" parses as major 0, minor 0, patch 0, empty ident. -/
theorem version_parse_invalid_iff (vs : String) :
    (parseCasperVersion vs = Except.error "Invalid version number" ↔
      (splitOnCharL '.' (jsTrimL vs.data)).length < 3)
    ∧ (3 ≤ (splitOnCharL '.' (jsTrimL vs.data)).length →
        (parseCasperVersion vs).isOk = true)
    ∧ (∀ l : List Char, jsDecNumber? l = none → jsToInt32L l = 0)
    ∧ parseCasperVersion "a.b.c" = Except.ok ⟨0, 0, 0, ""⟩ := by
  refine ⟨?_, ?_, fun l h => by simp [jsToInt32L, h], by rfl⟩
  · by_cases h : (splitOnCharL '.' (jsTrimL vs.data)).length < 3
    · simp [parseCasperVersion, h]
    · simp [parseCasperVersion, h]
  · intro h
    have h' : ¬ (splitOnCharL '.' (jsTrimL vs.data)).length < 3 := Nat.not_lt.mpr h
    simp [parseCasperVersion, h', Except.isOk, Except.toBool]

/-- Witness for C10 at the concrete input "1.2.3". -/
theorem version_parse_invalid_iff_witness :
    (parseCasperVersion "1.2.3").isOk = true :=
  (version_parse_invalid_iff "1.2.3").2.1 (by decide)

/-! Whole-bootstrap model (the env-initialization closure, lines 66-318).
The model covers the steps with observable effects or branching: the
casperLoaded guard, the PhantomJS version check, fs patching, root-path
discovery, version discovery, require patching, argument parsing, CLI
planning, the loaded-flag assignment and script injection.  The process-exit
primitive terminates the run per the spec contract; the host fs queries are
total (spec section 6), so the catch branch of the path discovery
(lines 156-158) is unreachable and a CasperError thrown by version discovery
propagates uncaught out of the closure. -/

/-- Observable bootstrap steps, in source order. -/
inductive Event where
  | versionCheck
  | fsPatched
  | pathDiscovery
  | versionRead
  | requireInstall
  | argsParsed
  | cliInit
  | loadedSet
  | scriptExec
deriving DecidableEq

/-- Position of each step in the source order. -/
def evIdx : Event → Nat
  | .versionCheck => 0
  | .fsPatched => 1
  | .pathDiscovery => 2
  | .versionRead => 3
  | .requireInstall => 4
  | .argsParsed => 5
  | .cliInit => 6
  | .loadedSet => 7
  | .scriptExec => 8

/-- Process-global phantom state the bootstrap reads and writes. -/
structure Phantom where
  casperLoaded : Bool
  casperPath : JStr
  casperScript : JStr
  casperScriptBaseDir : JStr
  casperTest : Bool
  casperSelfTest : Bool
  casperVersion : Option CasperVersion
  casperArgs : Option CasperArgs
  args : List String
  version : PhVersion
deriving DecidableEq

/-- How a bootstrap run ends: guard hit, process exit, uncaught throw, or
normal completion. -/
inductive BootResult where
  | noop
  | exited (code : Nat)
  | threw (msg : String)
  | completed
deriving DecidableEq

/-- A bootstrap run: steps executed, how it ended, and the final state. -/
structure BootOutcome where
  events : List Event
  result : BootResult
  phantom : Phantom
deriving DecidableEq

/-- External inputs: the patched file system, the JSON version-field reader
(none models a JSON.parse throw, some none a missing version field), the cli
module parser, and the injectJs primitive. -/
structure BootInput where
  fs : Fs
  jsonVer : String → Option (Option String)
  parseCli : List String → CasperArgs
  injectOk : JStr → Bool

/-- PhantomJS version check (lines 91-101): the rejection message, if any. -/
def versionCheckFail (v : PhVersion) : Option String :=
  if v.major ≠ 1 then some "CasperJS needs PhantomJS v1.x"
  else if v.minor < 8 then some "CasperJS needs at least PhantomJS v1.8 or later."
  else if v.minor = 8 ∧ v.patch < 1 then
    some "CasperJS needs at least PhantomJS v1.8.1 or later."
  else none

/-- Root-path discovery (lines 146-159): the last argument of the form
--casper-path=<dir> whose absolutized value is a directory; undefined when
none qualifies, since popping an empty array yields undefined, without any
exception being raised. -/
def discoverCasperPath (fs : Fs) (args : List String) : JStr :=
  ((args.map (fun a =>
      if a.startsWith "--casper-path=" then some (fs.absolute (some (a.drop 14)))
      else none)).filter fs.isDirectory).getLast?.join

/-- Phantom state after the root-path discovery step: discovery runs only
when the preset path is falsy. -/
def phAfterPath (fs : Fs) (ph : Phantom) : Phantom :=
  if jsFalsy ph.casperPath then
    { ph with casperPath := discoverCasperPath fs ph.args }
  else ph

/-- Absolute package.json path used by version discovery (line 270). -/
def pkgFileOf (fs : Fs) (cp : JStr) : String :=
  fs.absolute (some (fs.pathJoin [cp, some "package.json"]))

/-- Outcome of version discovery: a version record, or an uncaught throw. -/
inductive VerOutcome where
  | ok (v : CasperVersion)
  | thrown (msg : String)
deriving DecidableEq

/-- getCasperVersion (lines 268-297): a missing package.json, unreadable
contents, a missing version field, and a short version string all throw
errors that nothing in the file catches. -/
def getCasperVersionRun (fs : Fs) (jsonVer : String → Option (Option String))
    (cp : JStr) : VerOutcome :=
  let pkgFile := pkgFileOf fs cp
  if fs.existsF (some pkgFile) then
    match jsonVer (fs.read (some pkgFile)) with
    | none => VerOutcome.thrown "Cannot read package file contents"
    | some none => VerOutcome.thrown "TypeError: version field is undefined"
    | some (some vstr) =>
      match parseCasperVersion vstr with
      | Except.error m => VerOutcome.thrown m
      | Except.ok v => VerOutcome.ok v
  else VerOutcome.thrown ("Cannot find package.json at " ++ pkgFile)

/-- The planner state view of the phantom globals plus the parsed args. -/
def cliStateOf (ph : Phantom) (a : CasperArgs) : CliState :=
  { casperArgs := a
  , casperScript := ph.casperScript
  , casperScriptBaseDir := ph.casperScriptBaseDir
  , casperTest := ph.casperTest
  , casperSelfTest := ph.casperSelfTest }

/-- Write the planner state back into the phantom globals. -/
def mergeCli (ph : Phantom) (st : CliState) : Phantom :=
  { ph with casperScript := st.casperScript
          , casperScriptBaseDir := st.casperScriptBaseDir
          , casperTest := st.casperTest
          , casperSelfTest := st.casperSelfTest
          , casperArgs := some st.casperArgs }

/-- Phantom state after version read and argument parsing. -/
def phPreCli (inp : BootInput) (ph : Phantom) (v : CasperVersion) : Phantom :=
  { phAfterPath inp.fs ph with
      casperVersion := some v
    , casperArgs := some (inp.parseCli ph.args) }

/-- Events of a run that aborts during version discovery. -/
def evsThrow : List Event :=
  [Event.versionCheck, Event.fsPatched, Event.pathDiscovery, Event.versionRead]

/-- Events of a run the planner terminates. -/
def evsCliExit : List Event :=
  [Event.versionCheck, Event.fsPatched, Event.pathDiscovery, Event.versionRead,
   Event.requireInstall, Event.argsParsed, Event.cliInit]

/-- Events up to the loaded flag, planner included. -/
def evsCliLoaded : List Event :=
  [Event.versionCheck, Event.fsPatched, Event.pathDiscovery, Event.versionRead,
   Event.requireInstall, Event.argsParsed, Event.cliInit, Event.loadedSet]

/-- Events up to the loaded flag when the cli option is off. -/
def evsLoaded : List Event :=
  [Event.versionCheck, Event.fsPatched, Event.pathDiscovery, Event.versionRead,
   Event.requireInstall, Event.argsParsed, Event.loadedSet]

/-- Script injection step (lines 315-317). -/
def injectStep (inp : BootInput) (ph : Phantom) (evs : List Event) : BootOutcome :=
  if jsFalsy ph.casperScript then ⟨evs, BootResult.completed, ph⟩
  else if inp.injectOk ph.casperScript then
    ⟨evs ++ [Event.scriptExec], BootResult.completed, ph⟩
  else ⟨evs ++ [Event.scriptExec], BootResult.exited 1, ph⟩

/-- Require patching, argument parsing, planning, loaded flag and
injection (lines 299-317). -/
def bootstrapMain (inp : BootInput) (ph : Phantom) (v : CasperVersion) :
    BootOutcome :=
  if (inp.parseCli ph.args).options.cli then
    match initCasperCli inp.fs (phPreCli inp ph v).casperPath v ph.version
        (cliStateOf (phPreCli inp ph v) (inp.parseCli ph.args)) with
    | CliOutcome.exit e st =>
      ⟨evsCliExit, BootResult.exited e.code, mergeCli (phPreCli inp ph v) st⟩
    | CliOutcome.proceed st =>
      injectStep inp { mergeCli (phPreCli inp ph v) st with casperLoaded := true }
        evsCliLoaded
  else
    injectStep inp { phPreCli inp ph v with casperLoaded := true } evsLoaded

/-- The bootstrap body (lines 66-318). -/
def bootstrap (inp : BootInput) (ph : Phantom) : BootOutcome :=
  if ph.casperLoaded then ⟨[], BootResult.noop, ph⟩
  else
    match versionCheckFail ph.version with
    | some _ => ⟨[Event.versionCheck], BootResult.exited 1, ph⟩
    | none =>
      match getCasperVersionRun inp.fs inp.jsonVer (phAfterPath inp.fs ph).casperPath with
      | VerOutcome.thrown m => ⟨evsThrow, BootResult.threw m, phAfterPath inp.fs ph⟩
      | VerOutcome.ok v => bootstrapMain inp ph v

/-! Helper lemmas about the bootstrap run shape. -/

theorem injectStep_events_cases (inp : BootInput) (ph : Phantom) (evs : List Event) :
    (injectStep inp ph evs).events = evs
    ∨ (injectStep inp ph evs).events = evs ++ [Event.scriptExec] := by
  unfold injectStep
  split
  · exact Or.inl rfl
  · split
    · exact Or.inr rfl
    · exact Or.inr rfl

theorem phAfterPath_loaded (fs : Fs) (ph : Phantom) :
    (phAfterPath fs ph).casperLoaded = ph.casperLoaded := by
  unfold phAfterPath
  split <;> rfl

/-- Every bootstrap run has one of the eight possible shapes: the guard
no-op, the three aborts with the loaded flag untouched, or one of the four
completions whose event lists all contain every initialization step. -/
theorem bootstrap_shape (inp : BootInput) (ph : Phantom) :
    bootstrap inp ph = ⟨[], BootResult.noop, ph⟩
    ∨ ((bootstrap inp ph).phantom.casperLoaded = ph.casperLoaded
        ∧ ((bootstrap inp ph).events = [Event.versionCheck]
            ∨ (bootstrap inp ph).events = evsThrow
            ∨ (bootstrap inp ph).events = evsCliExit))
    ∨ ((bootstrap inp ph).events = evsCliLoaded
        ∨ (bootstrap inp ph).events = evsCliLoaded ++ [Event.scriptExec]
        ∨ (bootstrap inp ph).events = evsLoaded
        ∨ (bootstrap inp ph).events = evsLoaded ++ [Event.scriptExec]) := by
  rw [bootstrap]
  unfold bootstrapMain injectStep
  repeat' split
  all_goals first
    | exact Or.inl rfl
    | exact Or.inr (Or.inl ⟨rfl, Or.inl rfl⟩)
    | exact Or.inr (Or.inl ⟨phAfterPath_loaded _ _, Or.inr (Or.inl rfl)⟩)
    | exact Or.inr (Or.inl ⟨by simp [mergeCli, phPreCli, phAfterPath_loaded],
        Or.inr (Or.inr rfl)⟩)
    | exact Or.inr (Or.inr (Or.inl rfl))
    | exact Or.inr (Or.inr (Or.inr (Or.inl rfl)))
    | exact Or.inr (Or.inr (Or.inr (Or.inr (Or.inl rfl))))
    | exact Or.inr (Or.inr (Or.inr (Or.inr (Or.inr rfl))))

/-! Claim C9: the casperLoaded guard and the position of the flag write. -/

/-- C9: with the loaded flag already set the body returns immediately — no
step runs, the result is a no-op and the state is unchanged; every run
executes its steps in strict source order; and the final state has the flag
set only when either it was set on entry or every initialization step
(version check, fs patch, path discovery, version read, require install,
argument parse) executed together with the loadedSet write — which the
ordering places after all of them and before any script execution. -/
theorem bootstrap_runs_once :
    (∀ inp ph, ph.casperLoaded = true → bootstrap inp ph = ⟨[], BootResult.noop, ph⟩)
    ∧ (∀ inp ph,
        List.Pairwise (fun a b => evIdx a < evIdx b) (bootstrap inp ph).events)
    ∧ (∀ inp ph, (bootstrap inp ph).phantom.casperLoaded = true →
        ph.casperLoaded = true ∨
        (Event.versionCheck ∈ (bootstrap inp ph).events
          ∧ Event.fsPatched ∈ (bootstrap inp ph).events
          ∧ Event.pathDiscovery ∈ (bootstrap inp ph).events
          ∧ Event.versionRead ∈ (bootstrap inp ph).events
          ∧ Event.requireInstall ∈ (bootstrap inp ph).events
          ∧ Event.argsParsed ∈ (bootstrap inp ph).events
          ∧ Event.loadedSet ∈ (bootstrap inp ph).events)) := by
  refine ⟨fun inp ph h => by simp [bootstrap, h], fun inp ph => ?_, fun inp ph => ?_⟩
  · rcases bootstrap_shape inp ph with h | ⟨_, h | h | h⟩ | (h | h | h | h) <;>
      first
        | (rw [h]; exact List.Pairwise.nil)
        | (rw [h]; decide)
  · intro hLoaded
    by_cases hL : ph.casperLoaded = true
    · exact Or.inl hL
    · rcases bootstrap_shape inp ph with h | ⟨hl, _⟩ | (h | h | h | h)
      · rw [h] at hLoaded
        exact Or.inl hLoaded
      · rw [hl] at hLoaded
        exact Or.inl hLoaded
      · exact Or.inr (by rw [h]; decide)
      · exact Or.inr (by rw [h]; decide)
      · exact Or.inr (by rw [h]; decide)
      · exact Or.inr (by rw [h]; decide)

/-! Claim C6: a missing target script at the post-table check. -/

/-- C6: reaching the post-table existence check with a target script that is
not a file terminates with exit code 1 and the diagnostic naming the
attempted path, with the positional list untouched — the final drop of the
script token never runs; and at the bootstrap level a planner exit ends the
run at the cliInit step with the single resolver installation placed before
it and nothing at all afterwards. -/
theorem missing_script_dies (fs : Fs) (st : CliState)
    (hF : fs.isFile (tableScript st) = false) :
    afterTable fs st = CliOutcome.exit
      ⟨1, some ("Unable to open file: " ++ jsShow (tableScript st)), true⟩
      { st with casperScript := tableScript st }
    ∧ ({ st with casperScript := tableScript st } : CliState).casperArgs
        = st.casperArgs
    ∧ evsCliExit.count Event.requireInstall = 1
    ∧ evsCliExit.getLast? = some Event.cliInit
    ∧ (∀ inp ph v e st2,
        ph.casperLoaded = false →
        versionCheckFail ph.version = none →
        getCasperVersionRun inp.fs inp.jsonVer (phAfterPath inp.fs ph).casperPath
          = VerOutcome.ok v →
        (inp.parseCli ph.args).options.cli = true →
        initCasperCli inp.fs (phPreCli inp ph v).casperPath v ph.version
            (cliStateOf (phPreCli inp ph v) (inp.parseCli ph.args))
          = CliOutcome.exit e st2 →
        bootstrap inp ph
          = ⟨evsCliExit, BootResult.exited e.code, mergeCli (phPreCli inp ph v) st2⟩) := by
  refine ⟨by simp [afterTable, hF], rfl, by decide, by decide, ?_⟩
  intro inp ph v e st2 hL hv hg hc hi
  simp [bootstrap, hL, hv, hg, bootstrapMain, hc, hi]

def cargs6 : CasperArgs :=
  { options := { version := false, help := false, cli := true, includes := none }
  , args := ["nope.js"] }

def fsC6 : Fs := listFs ["/casper/package.json"] []

def stC6 : CliState :=
  { casperArgs := cargs6, casperScript := none, casperScriptBaseDir := none
  , casperTest := false, casperSelfTest := false }

def bi6 : BootInput :=
  { fs := fsC6, jsonVer := fun _ => some (some "1.1.0")
  , parseCli := fun _ => cargs6, injectOk := fun _ => true }

def ph6 : Phantom :=
  { casperLoaded := false, casperPath := some "/casper", casperScript := none
  , casperScriptBaseDir := none, casperTest := false, casperSelfTest := false
  , casperVersion := none, casperArgs := none, args := ["nope.js"]
  , version := ⟨1, 9, 8⟩ }

def v6 : CasperVersion := ⟨1, 1, 0, ""⟩

def e6 : ExitInfo := ⟨1, some "Unable to open file: nope.js", true⟩

def st2c : CliState :=
  { casperArgs := cargs6, casperScript := some "nope.js"
  , casperScriptBaseDir := none, casperTest := false, casperSelfTest := false }

/-- Witness for C6 at a concrete input: a nonexistent script "nope.js". -/
theorem missing_script_dies_witness :
    afterTable fsC6 stC6 = CliOutcome.exit
      ⟨1, some ("Unable to open file: " ++ jsShow (tableScript stC6)), true⟩
      { stC6 with casperScript := tableScript stC6 }
    ∧ bootstrap bi6 ph6
        = ⟨evsCliExit, BootResult.exited e6.code, mergeCli (phPreCli bi6 ph6 v6) st2c⟩ :=
  ⟨(missing_script_dies fsC6 stC6 (by decide)).1,
   (missing_script_dies fsC6 stC6 (by decide)).2.2.2.2 bi6 ph6 v6 e6 st2c rfl
     (by decide) (by decide) rfl (by decide)⟩

/-! Claim C7: undiscoverable root path. -/

/-- C7 (amended): when the root path is not preset and discovery over the
argument vector yields nothing — popping an empty candidate array returns
undefined without raising, so the exit(1) catch branch is not taken — the
root path stays undefined and the run aborts during version discovery by
throwing the uncaught CasperError naming the missing package.json, before
the resolver installation, the planner, the loaded-flag write or any script
execution. -/
theorem casperpath_undiscoverable_throws (inp : BootInput) (ph : Phantom)
    (hL : ph.casperLoaded = false)
    (hv : versionCheckFail ph.version = none)
    (hCP : jsFalsy ph.casperPath = true)
    (hD : discoverCasperPath inp.fs ph.args = none)
    (hE : inp.fs.existsF (some (pkgFileOf inp.fs none)) = false) :
    bootstrap inp ph
      = ⟨evsThrow,
          BootResult.threw ("Cannot find package.json at " ++ pkgFileOf inp.fs none),
          { ph with casperPath := none }⟩
    ∧ Event.requireInstall ∉ evsThrow
    ∧ Event.cliInit ∉ evsThrow
    ∧ Event.loadedSet ∉ evsThrow
    ∧ Event.scriptExec ∉ evsThrow := by
  have hPA : phAfterPath inp.fs ph = { ph with casperPath := none } := by
    rw [phAfterPath, if_pos hCP, hD]
  have hG : getCasperVersionRun inp.fs inp.jsonVer none
      = VerOutcome.thrown ("Cannot find package.json at " ++ pkgFileOf inp.fs none) := by
    simp [getCasperVersionRun, hE]
  refine ⟨?_, by decide, by decide, by decide, by decide⟩
  simp [bootstrap, hL, hv, hPA, hG]

def noArgs : CasperArgs :=
  { options := { version := false, help := false, cli := false, includes := none }
  , args := [] }

def bi7 : BootInput :=
  { fs := listFs [] [], jsonVer := fun _ => none, parseCli := fun _ => noArgs
  , injectOk := fun _ => true }

def ph7 : Phantom :=
  { casperLoaded := false, casperPath := none, casperScript := none
  , casperScriptBaseDir := none, casperTest := false, casperSelfTest := false
  , casperVersion := none, casperArgs := none, args := [], version := ⟨1, 9, 2⟩ }

/-- C7 counterexample: root path unset, empty argument vector, good runtime
version — the run does not exit with code 1; it aborts with the uncaught
package.json error thrown by version discovery. -/
theorem casperpath_exit_counterexample :
    (bootstrap bi7 ph7).result
        = BootResult.threw "Cannot find package.json at /package.json"
    ∧ (bootstrap bi7 ph7).result ≠ BootResult.exited 1 :=
  ⟨by decide, by decide⟩

/-- Witness for the amended C7 at the concrete empty-argument input. -/
theorem casperpath_undiscoverable_throws_witness :
    bootstrap bi7 ph7
      = ⟨evsThrow,
          BootResult.threw ("Cannot find package.json at " ++ pkgFileOf bi7.fs none),
          { ph7 with casperPath := none }⟩ :=
  (casperpath_undiscoverable_throws bi7 ph7 rfl (by decide) rfl (by decide)
    (by decide)).1

def ph9 : Phantom := { ph7 with casperLoaded := true }

/-- Witness for C9: with the loaded flag set on entry the body is a no-op. -/
theorem bootstrap_runs_once_witness :
    bootstrap bi7 ph9 = ⟨[], BootResult.noop, ph9⟩ :=
  bootstrap_runs_once.1 bi7 ph9 rfl

end Casper
